import Mathlib

/-!
Shallow embedding of the google-translation Rust client library (src/src/lib.rs),
covering the data it marshals, the HTTP call dispatcher's outcome classification,
header and URL construction, JSON (de)serialization of the serde-derived request
structs, and the long-running-operation polling loop `Operation::wait_util_done`.

Network transport is external to the library: each wait call's outcome is
modelled by an element of a finite oracle list `List (Except Error Operation)`,
standing for the sequence of `wait_operation` results the remote service returns.
Machine integers (`u16` status codes, `usize` counts) are modelled as `Nat`,
`i32` status codes as `Int`; byte buffers as `List Nat`.
-/

set_option autoImplicit false

namespace GoogleTranslation

/-- Model of `serde_json::Value`: an untyped JSON tree. Numbers are modelled as
integers (`Int`), which suffices for every value these claims touch. -/
inductive Json where
  | null
  | bool (b : Bool)
  | num (n : Int)
  | str (s : String)
  | arr (items : List Json)
  | obj (fields : List (String × Json))

/-- Model of the opaque `serde_json::Error` (only its presence matters). -/
structure SerdeError where
  msg : String
deriving DecidableEq

/-- Model of the opaque `hyper::error::Error` (transport failure). -/
structure HyperErrorValue where
  msg : String
deriving DecidableEq

/-- The library's error enum (lib.rs lines 22-28):
`HyperError`, `SerdeJsonError`, `ResponseError(u16, serde_json::Value)`, `Other(String)`. -/
inductive Error where
  | HyperError (e : HyperErrorValue)
  | SerdeJsonError (e : SerdeError)
  | ResponseError (status : Nat) (body : Json)
  | Other (msg : String)

/-- `google.rpc.Status` (lib.rs lines 720-733): code `i32`, message, optional details. -/
structure Status where
  code : Int
  message : String
  details : Option (List Json)

/-- A long-running operation resource (lib.rs lines 587-613). -/
structure Operation where
  name : String
  metadata : Json
  done : Option Bool
  error : Option Status
  response : Option Json

/-- The request body sent on each wait call (lib.rs lines 698-706). -/
structure WaitOperationRequestBody where
  timeout : Option String
deriving DecidableEq

/-- The constant request body constructed at every iteration of the wait loop
(lib.rs line 620): `WaitOperationRequestBody { timeout: Some("1s".to_string()) }`. -/
def wait_request_body : WaitOperationRequestBody :=
  { timeout := some "1s" }

/-- Model of `futures::future::Loop`: `Break` ends `loop_fn`, `Continue` iterates. -/
inductive LoopStep (B S : Type) where
  | Break (b : B)
  | Continue (s : S)

/-- `Option α` debug-formatted the way Rust's `derive(Debug)` prints it. -/
def debug_opt {α : Type} (f : α → String) : Option α → String
  | none => "None"
  | some x => "Some(" ++ f x ++ ")"

mutual
/-- Debug formatting of a `serde_json::Value`, modelling the `{:?}` output used in
the wait loop's protocol-violation message (string escaping is modelled as the
identity, which is exact for the strings appearing in these claims). -/
def debug_json : Json → String
  | .null => "Null"
  | .bool b => "Bool(" ++ toString b ++ ")"
  | .num n => "Number(" ++ toString n ++ ")"
  | .str s => "String(\"" ++ s ++ "\")"
  | .arr items => "Array([" ++ debug_json_list items ++ "])"
  | .obj fields => "Object(\x7b" ++ debug_json_fields fields ++ "\x7d)"

/-- Comma-separated debug formatting of a JSON array's elements. -/
def debug_json_list : List Json → String
  | [] => ""
  | [j] => debug_json j
  | j :: rest => debug_json j ++ ", " ++ debug_json_list rest

/-- Comma-separated debug formatting of a JSON object's fields. -/
def debug_json_fields : List (String × Json) → String
  | [] => ""
  | [(k, j)] => "\"" ++ k ++ "\": " ++ debug_json j
  | (k, j) :: rest => "\"" ++ k ++ "\": " ++ debug_json j ++ ", " ++ debug_json_fields rest
end

/-- Debug formatting of a `Status`, per `derive(Debug)`. -/
def debug_status (s : Status) : String :=
  "Status \x7b code: " ++ toString s.code ++ ", message: \"" ++ s.message ++
    "\", details: " ++ debug_opt (fun l => "[" ++ debug_json_list l ++ "]") s.details ++ " \x7d"

/-- Debug formatting of an `Operation`, per `derive(Debug)`. -/
def debug_operation (op : Operation) : String :=
  "Operation \x7b name: \"" ++ op.name ++ "\", metadata: " ++ debug_json op.metadata ++
    ", done: " ++ debug_opt toString op.done ++
    ", error: " ++ debug_opt debug_status op.error ++
    ", response: " ++ debug_opt debug_json op.response ++ " \x7d"

/-- The message built with `format!` at lib.rs line 630 when a terminal operation
carries neither a response nor an error. -/
def protocol_violation_message (new_operation : Operation) : String :=
  "wait_operation should return one of response or error : " ++ debug_operation new_operation

/-- One iteration body of `Operation::wait_util_done` (lib.rs lines 622-635):
inspect the operation returned by the wait call and decide whether to continue
looping, break with a terminal outcome (`Ok(response)` or `Err(error)` inside the
future's success channel), or abort with a local `Error::Other`. -/
def wait_step (new_operation : Operation) :
    Except Error (LoopStep (Except Status Json) Unit) :=
  match new_operation.done with
  | none | some false => .ok (.Continue ())
  | some true =>
    match new_operation.response with
    | some response => .ok (.Break (.ok response))
    | none =>
      match new_operation.error with
      | some error => .ok (.Break (.error error))
      | none => .error (.Other (protocol_violation_message new_operation))

/-- `Operation::wait_util_done` (lib.rs lines 616-638) driven by a finite oracle of
wait-call results. `none` means the loop was still running when the oracle was
exhausted; `some r` is the resolved future: its error channel (`Except.error`)
carries call-level failures and the `Error::Other` protocol violation, while its
success channel carries `StdResult<serde_json::Value, Status>`. -/
def wait_util_done : List (Except Error Operation) → Option (Except Error (Except Status Json))
  | [] => none
  | r :: rest =>
    match r with
    | .error e => some (.error e)
    | .ok new_operation =>
      match wait_step new_operation with
      | .error e => some (.error e)
      | .ok (.Break outcome) => some (.ok outcome)
      | .ok (.Continue _) => wait_util_done rest

/-- Number of wait calls the loop issues against the oracle before stopping
(every consumed oracle entry is one `wait_operation` network call). -/
def wait_calls : List (Except Error Operation) → Nat
  | [] => 0
  | r :: rest =>
    match r with
    | .error _ => 1
    | .ok new_operation =>
      match wait_step new_operation with
      | .error _ => 1
      | .ok (.Break _) => 1
      | .ok (.Continue _) => 1 + wait_calls rest

/-- A wait-call result is terminal when the call itself failed or the returned
operation reports `done = Some(true)` (in which case the loop breaks or aborts). -/
def is_terminal_response : Except Error Operation → Bool
  | .error _ => true
  | .ok op =>
    match op.done with
    | some true => true
    | _ => false

/-- `code::OK` from the `define_error_codes!` expansion (lib.rs lines 558-585). -/
def code.OK : Nat := 200

/-- `code::NOT_FOUND` from the same expansion. -/
def code.NOT_FOUND : Nat := 404

/-- The response-classification closure of `post_request` (lib.rs lines 124-134).
The generic `OB::from_slice` codec and the external `serde_json::from_slice::<Value>`
decoder become explicit function arguments; `status` is the HTTP status code and
`body` the fully-read response bytes. -/
def post_request_classify {OB : Type}
    (from_slice : List Nat → Except SerdeError OB)
    (json_from_slice : List Nat → Except SerdeError Json)
    (status : Nat) (body : List Nat) : Except Error OB :=
  if status = code.OK then
    match from_slice body with
    | .ok v => .ok v
    | .error e => .error (.SerdeJsonError e)
  else
    match json_from_slice body with
    | .ok b => .error (.ResponseError status b)
    | .error e => .error (.SerdeJsonError e)

/-- The response-classification closure of `get_request` (lib.rs lines 165-175);
textually identical to the `post_request` one. -/
def get_request_classify {OB : Type}
    (from_slice : List Nat → Except SerdeError OB)
    (json_from_slice : List Nat → Except SerdeError Json)
    (status : Nat) (body : List Nat) : Except Error OB :=
  if status = code.OK then
    match from_slice body with
    | .ok v => .ok v
    | .error e => .error (.SerdeJsonError e)
  else
    match json_from_slice body with
    | .ok b => .error (.ResponseError status b)
    | .error e => .error (.SerdeJsonError e)

/-- The response-classification closure of `delete_request` (lib.rs lines 197-207);
textually identical to the `post_request` one. -/
def delete_request_classify {OB : Type}
    (from_slice : List Nat → Except SerdeError OB)
    (json_from_slice : List Nat → Except SerdeError Json)
    (status : Nat) (body : List Nat) : Except Error OB :=
  if status = code.OK then
    match from_slice body with
    | .ok v => .ok v
    | .error e => .error (.SerdeJsonError e)
  else
    match json_from_slice body with
    | .ok b => .error (.ResponseError status b)
    | .error e => .error (.SerdeJsonError e)

/-- The `Empty` marker struct (lib.rs line 38): a bodiless request/response. -/
structure Empty where

/-- `<Empty as ResponseOrEmpty>::from_slice` (lib.rs lines 90-95): ignores the
body bytes entirely and always returns `Ok(Empty)`. -/
def Empty.from_slice (_data : List Nat) : Except SerdeError Empty :=
  .ok {}

/-- Validity of a string as an HTTP header value, as enforced by hyper's
`HeaderValue::from_str`: every byte must be the horizontal tab or in the visible
range `0x20..=0xFF` excluding `DEL` (0x7f). Characters below 0x80 map to a single
identical byte and characters at or above 0x80 only produce bytes at or above
0x80, so this per-character check coincides with hyper's per-byte check. -/
def is_valid_header_value (s : String) : Bool :=
  s.data.all fun c => decide (c.toNat = 9 ∨ (32 ≤ c.toNat ∧ c.toNat ≠ 127))

/-- `HeaderValue::from_str` modelled as a partial function: `none` is the `Err`
that the dispatchers immediately `unwrap()`, i.e. a panic. -/
def header_value_from_str (s : String) : Option String :=
  if is_valid_header_value s then some s else none

/-- Rust's `char::is_whitespace`: the Unicode `White_Space` property. -/
def is_rust_whitespace (c : Char) : Bool :=
  decide (c.toNat ∈ [0x09, 0x0a, 0x0b, 0x0c, 0x0d, 0x20, 0x85, 0xa0, 0x1680,
    0x2000, 0x2001, 0x2002, 0x2003, 0x2004, 0x2005, 0x2006, 0x2007, 0x2008,
    0x2009, 0x200a, 0x2028, 0x2029, 0x202f, 0x205f, 0x3000])

/-- Rust's `str::trim`: remove leading and trailing `White_Space` characters. -/
def rust_trim (s : String) : String :=
  String.mk (((s.data.dropWhile is_rust_whitespace).reverse.dropWhile is_rust_whitespace).reverse)

/-- The Authorization header value `format!("Bearer {}", access_token.trim())`
(lib.rs lines 113, 154, 186). -/
def bearer_value (access_token : String) : String :=
  "Bearer " ++ rust_trim access_token

/-- Headers attached by `post_request` (lib.rs lines 107-114), in insertion order:
`Content-Type: application/json` then `Authorization`. `none` models the panic of
`HeaderValue::from_str(...).unwrap()` on an invalid token. -/
def post_request_headers (access_token : String) : Option (List (String × String)) :=
  (header_value_from_str (bearer_value access_token)).map fun auth =>
    [("Content-Type", "application/json"), ("Authorization", auth)]

/-- Headers attached by `get_request` (lib.rs lines 148-155): same two headers. -/
def get_request_headers (access_token : String) : Option (List (String × String)) :=
  (header_value_from_str (bearer_value access_token)).map fun auth =>
    [("Content-Type", "application/json"), ("Authorization", auth)]

/-- Headers attached by `delete_request` (lib.rs lines 184-187): only the
Authorization header is inserted; no Content-Type. -/
def delete_request_headers (access_token : String) : Option (List (String × String)) :=
  (header_value_from_str (bearer_value access_token)).map fun auth =>
    [("Authorization", auth)]

/-- URL built by `cancel_operation` (lib.rs line 647):
`format!("https://translation.googleapis.com/v3beta1/{}:cancel", name)`. -/
def cancel_operation_url (name : String) : String :=
  "https://translation.googleapis.com/v3beta1/" ++ name ++ ":cancel"

/-- URL built by `delete_operation` (lib.rs line 654):
`format!("https://translation.googleapis.com/v3beta1/{}:cancel", name)`. -/
def delete_operation_url (name : String) : String :=
  "https://translation.googleapis.com/v3beta1/" ++ name ++ ":cancel"

/-- URL built by `get_opertion` (lib.rs line 661):
`format!("https://translation.googleapis.com/v3beta1/{}", name)`. -/
def get_opertion_url (name : String) : String :=
  "https://translation.googleapis.com/v3beta1/" ++ name

/-- The bare operation resource path the spec's endpoint table prescribes for
DELETE: `.../v3beta1/{operation_name}` with no suffix. -/
def bare_operation_url (name : String) : String :=
  "https://translation.googleapis.com/v3beta1/" ++ name

/-! ### serde_json semantics for the derived `Serialize`/`Deserialize` impls

All the Serialize+Deserialize structs carry `#[serde(rename_all = "camelCase")]`
and no `skip_serializing_if` attributes, so the derived serializer emits every
field in declaration order under its camelCase name, serializing a `None`
optional field as JSON `null`; the derived deserializer looks fields up by name
in any order, treats a missing or `null` optional field as `None`, and rejects a
missing required field or a type mismatch. -/

/-- Serialize an `Option` field the way derived serde does without
`skip_serializing_if`: `None` becomes JSON `null`. -/
def json_of_opt {α : Type} (f : α → Json) : Option α → Json
  | none => .null
  | some x => f x

/-- Field lookup in a decoded JSON object (first occurrence, any order). -/
def get_field (fields : List (String × Json)) (key : String) : Option Json :=
  List.lookup key fields

/-- Decode a required field: missing is a deserialization error. -/
def req_field {α : Type} (fields : List (String × Json)) (key : String)
    (dec : Json → Except SerdeError α) : Except SerdeError α :=
  match get_field fields key with
  | none => .error { msg := "missing field `" ++ key ++ "`" }
  | some v => dec v

/-- Decode an `Option` field: missing or `null` is `None`, per serde's treatment
of `Option` struct fields. -/
def opt_field {α : Type} (fields : List (String × Json)) (key : String)
    (dec : Json → Except SerdeError α) : Except SerdeError (Option α) :=
  match get_field fields key with
  | none => .ok none
  | some .null => .ok none
  | some v => (dec v).map some

/-- Decode a JSON string. -/
def decode_string : Json → Except SerdeError String
  | .str s => .ok s
  | _ => .error { msg := "invalid type: expected a string" }

/-- Decode a JSON boolean. -/
def decode_bool : Json → Except SerdeError Bool
  | .bool b => .ok b
  | _ => .error { msg := "invalid type: expected a boolean" }

/-- Decode a `usize`: a non-negative JSON integer. -/
def decode_usize : Json → Except SerdeError Nat
  | .num n => if 0 ≤ n then .ok n.toNat else .error { msg := "invalid value: negative integer for usize" }
  | _ => .error { msg := "invalid type: expected an integer" }

/-- Decode the elements of a JSON array of strings. -/
def decode_string_elems : List Json → Except SerdeError (List String)
  | [] => .ok []
  | j :: rest => do
    let s ← decode_string j
    let t ← decode_string_elems rest
    .ok (s :: t)

/-- Decode a `Vec<String>`. -/
def decode_string_list : Json → Except SerdeError (List String)
  | .arr items => decode_string_elems items
  | _ => .error { msg := "invalid type: expected an array" }

/-- `TranslateTextGlossaryConfig` (lib.rs lines 378-388): required `glossary`,
optional `ignore_case` (wire name `ignoreCase`). -/
structure TranslateTextGlossaryConfig where
  glossary : String
  ignore_case : Option Bool

/-- Derived `Serialize` for `TranslateTextGlossaryConfig`. -/
def TranslateTextGlossaryConfig.to_json (c : TranslateTextGlossaryConfig) : Json :=
  .obj [("glossary", .str c.glossary), ("ignoreCase", json_of_opt Json.bool c.ignore_case)]

/-- Derived `Deserialize` for `TranslateTextGlossaryConfig`. -/
def TranslateTextGlossaryConfig.from_json (j : Json) : Except SerdeError TranslateTextGlossaryConfig :=
  match j with
  | .obj fields => do
    let glossary ← req_field fields "glossary" decode_string
    let ignore_case ← opt_field fields "ignoreCase" decode_bool
    .ok { glossary, ignore_case }
  | _ => .error { msg := "invalid type: expected an object" }

/-- `GcsSource` (lib.rs lines 541-547): required `input_uri` (wire `inputUri`). -/
structure GcsSource where
  input_uri : String

/-- Derived `Serialize` for `GcsSource`. -/
def GcsSource.to_json (s : GcsSource) : Json :=
  .obj [("inputUri", .str s.input_uri)]

/-- Derived `Deserialize` for `GcsSource`. -/
def GcsSource.from_json (j : Json) : Except SerdeError GcsSource :=
  match j with
  | .obj fields => do
    let input_uri ← req_field fields "inputUri" decode_string
    .ok { input_uri }
  | _ => .error { msg := "invalid type: expected an object" }

/-- `GlossaryInputConfig` (lib.rs lines 793-797): required `gcs_source`. -/
structure GlossaryInputConfig where
  gcs_source : GcsSource

/-- Derived `Serialize` for `GlossaryInputConfig`. -/
def GlossaryInputConfig.to_json (c : GlossaryInputConfig) : Json :=
  .obj [("gcsSource", c.gcs_source.to_json)]

/-- Derived `Deserialize` for `GlossaryInputConfig`. -/
def GlossaryInputConfig.from_json (j : Json) : Except SerdeError GlossaryInputConfig :=
  match j with
  | .obj fields => do
    let gcs_source ← req_field fields "gcsSource" GcsSource.from_json
    .ok { gcs_source }
  | _ => .error { msg := "invalid type: expected an object" }

/-- `LanguageCodePair` (lib.rs lines 800-809): two required language codes. -/
structure LanguageCodePair where
  source_language_code : String
  target_language_code : String

/-- Derived `Serialize` for `LanguageCodePair`. -/
def LanguageCodePair.to_json (p : LanguageCodePair) : Json :=
  .obj [("sourceLanguageCode", .str p.source_language_code),
        ("targetLanguageCode", .str p.target_language_code)]

/-- Derived `Deserialize` for `LanguageCodePair`. -/
def LanguageCodePair.from_json (j : Json) : Except SerdeError LanguageCodePair :=
  match j with
  | .obj fields => do
    let source_language_code ← req_field fields "sourceLanguageCode" decode_string
    let target_language_code ← req_field fields "targetLanguageCode" decode_string
    .ok { source_language_code, target_language_code }
  | _ => .error { msg := "invalid type: expected an object" }

/-- `LanguageCodesSet` (lib.rs lines 812-818): a required `Vec<String>`. -/
structure LanguageCodesSet where
  language_codes : List String

/-- Derived `Serialize` for `LanguageCodesSet`. -/
def LanguageCodesSet.to_json (s : LanguageCodesSet) : Json :=
  .obj [("languageCodes", .arr (s.language_codes.map Json.str))]

/-- Derived `Deserialize` for `LanguageCodesSet`. -/
def LanguageCodesSet.from_json (j : Json) : Except SerdeError LanguageCodesSet :=
  match j with
  | .obj fields => do
    let language_codes ← req_field fields "languageCodes" decode_string_list
    .ok { language_codes }
  | _ => .error { msg := "invalid type: expected an object" }

/-- `Glossary` (lib.rs lines 752-777): required `name` and `input_config`, five
optional fields. -/
structure Glossary where
  name : String
  input_config : GlossaryInputConfig
  entry_count : Option Nat
  submit_time : Option String
  end_time : Option String
  language_pair : Option LanguageCodePair
  language_codes_set : Option LanguageCodesSet

/-- Derived `Serialize` for `Glossary` (fields in declaration order, camelCase,
`None` as `null`). -/
def Glossary.to_json (g : Glossary) : Json :=
  .obj [("name", .str g.name),
        ("inputConfig", g.input_config.to_json),
        ("entryCount", json_of_opt (fun n => Json.num (Int.ofNat n)) g.entry_count),
        ("submitTime", json_of_opt Json.str g.submit_time),
        ("endTime", json_of_opt Json.str g.end_time),
        ("languagePair", json_of_opt LanguageCodePair.to_json g.language_pair),
        ("languageCodesSet", json_of_opt LanguageCodesSet.to_json g.language_codes_set)]

/-- Derived `Deserialize` for `Glossary`. -/
def Glossary.from_json (j : Json) : Except SerdeError Glossary :=
  match j with
  | .obj fields => do
    let name ← req_field fields "name" decode_string
    let input_config ← req_field fields "inputConfig" GlossaryInputConfig.from_json
    let entry_count ← opt_field fields "entryCount" decode_usize
    let submit_time ← opt_field fields "submitTime" decode_string
    let end_time ← opt_field fields "endTime" decode_string
    let language_pair ← opt_field fields "languagePair" LanguageCodePair.from_json
    let language_codes_set ← opt_field fields "languageCodesSet" LanguageCodesSet.from_json
    .ok { name, input_config, entry_count, submit_time, end_time, language_pair, language_codes_set }
  | _ => .error { msg := "invalid type: expected an object" }

/-- The keys of a serialized JSON object, in emission order. -/
def obj_keys : Json → List String
  | .obj fields => fields.map Prod.fst
  | _ => []

/-! ### Helper lemmas -/

theorem except_ok_bind {ε α β : Type} (a : α) (f : α → Except ε β) :
    ((Except.ok a : Except ε α) >>= f) = f a := rfl

theorem except_map_ok {ε α β : Type} (f : α → β) (a : α) :
    Except.map f (Except.ok a : Except ε α) = Except.ok (f a) := rfl

theorem decode_string_elems_map (l : List String) :
    decode_string_elems (l.map Json.str) = .ok l := by
  induction l with
  | nil => rfl
  | cons s rest ih => simp [decode_string_elems, decode_string, ih, except_ok_bind]

theorem wait_util_done_none_iff (responses : List (Except Error Operation)) :
    wait_util_done responses = none ↔ ∀ r ∈ responses, is_terminal_response r = false := by
  induction responses with
  | nil => simp [wait_util_done]
  | cons r rest ih =>
    cases r with
    | error e => simp [wait_util_done, is_terminal_response]
    | ok op =>
      rcases hd : op.done with _ | b
      · simp [wait_util_done, wait_step, hd, is_terminal_response, ih]
      · cases b
        · simp [wait_util_done, wait_step, hd, is_terminal_response, ih]
        · rcases hr : op.response with _ | v
          · rcases he : op.error with _ | s
            · simp [wait_util_done, wait_step, hd, hr, he, is_terminal_response]
            · simp [wait_util_done, wait_step, hd, hr, he, is_terminal_response]
          · simp [wait_util_done, wait_step, hd, hr, is_terminal_response]

/-! ### Claim theorems -/

/-- C1: when a wait call returns an Operation with `done = Some(true)` and
`response = Some(v)`, `wait_util_done` breaks out of the loop at that very
iteration (one wait call consumed, none after it) and resolves to the success
outcome `Ok(v)` in the future's success channel, whatever `error` holds:
the `response` arm is matched before `error` is even inspected. -/
theorem wait_done_response_wins (op : Operation) (v : Json)
    (rest : List (Except Error Operation))
    (hdone : op.done = some true) (hresp : op.response = some v) :
    wait_util_done (.ok op :: rest) = some (.ok (.ok v)) ∧
    wait_calls (.ok op :: rest) = 1 := by
  constructor <;> simp [wait_util_done, wait_calls, wait_step, hdone, hresp]

theorem wait_done_response_wins_witness :
    wait_util_done [Except.ok ⟨"operations/1", Json.null, some true,
        some ⟨13, "boom", none⟩, some (Json.str "payload")⟩]
      = some (.ok (.ok (Json.str "payload"))) ∧
    wait_calls [Except.ok ⟨"operations/1", Json.null, some true,
        some ⟨13, "boom", none⟩, some (Json.str "payload")⟩] = 1 :=
  wait_done_response_wins ⟨"operations/1", Json.null, some true,
    some ⟨13, "boom", none⟩, some (Json.str "payload")⟩ (Json.str "payload") [] rfl rfl

/-- C2: when a wait call returns `done = Some(true)`, `response = None`,
`error = Some(s)`, the loop terminates with the failure outcome `s`, delivered
inside the future's success channel as the `Err(s)` of the inner `StdResult`
(the outer `Except.ok` below), not through the call-level `Error` channel. -/
theorem wait_done_error_failure_outcome (op : Operation) (s : Status)
    (rest : List (Except Error Operation))
    (hdone : op.done = some true) (hresp : op.response = none)
    (herr : op.error = some s) :
    wait_util_done (.ok op :: rest) = some (.ok (.error s)) ∧
    wait_calls (.ok op :: rest) = 1 := by
  constructor <;> simp [wait_util_done, wait_calls, wait_step, hdone, hresp, herr]

theorem wait_done_error_failure_outcome_witness :
    wait_util_done [Except.ok ⟨"operations/2", Json.null, some true,
        some ⟨13, "boom", none⟩, none⟩]
      = some (.ok (.error ⟨13, "boom", none⟩)) ∧
    wait_calls [Except.ok ⟨"operations/2", Json.null, some true,
        some ⟨13, "boom", none⟩, none⟩] = 1 :=
  wait_done_error_failure_outcome ⟨"operations/2", Json.null, some true,
    some ⟨13, "boom", none⟩, none⟩ ⟨13, "boom", none⟩ [] rfl rfl rfl

/-- C3: when a wait call returns `done = Some(true)` with neither `response` nor
`error`, the loop terminates at once with the local `Error::Other` protocol
violation (in the future's error channel), consuming exactly one wait call and
issuing no further ones; the state is neither treated as success nor retried. -/
theorem wait_done_neither_is_protocol_violation (op : Operation)
    (rest : List (Except Error Operation))
    (hdone : op.done = some true) (hresp : op.response = none)
    (herr : op.error = none) :
    wait_util_done (.ok op :: rest)
      = some (.error (.Other (protocol_violation_message op))) ∧
    wait_calls (.ok op :: rest) = 1 := by
  constructor <;> simp [wait_util_done, wait_calls, wait_step, hdone, hresp, herr]

theorem wait_done_neither_is_protocol_violation_witness :
    wait_util_done [Except.ok ⟨"operations/9", Json.null, some true, none, none⟩]
      = some (.error (.Other (protocol_violation_message
          ⟨"operations/9", Json.null, some true, none, none⟩))) ∧
    wait_calls [Except.ok ⟨"operations/9", Json.null, some true, none, none⟩] = 1 :=
  wait_done_neither_is_protocol_violation
    ⟨"operations/9", Json.null, some true, none, none⟩ [] rfl rfl rfl

/-- C4: every iteration sends the fixed `timeout = "1s"` request body; a wait
response with `done = None` or `Some(false)` makes the loop issue exactly one
more wait call and continue; the loop terminates precisely when some wait
response is terminal (the call failed or the operation reports
`done = Some(true)`); over any never-done oracle the loop never terminates. -/
theorem wait_loop_progress_and_termination :
    wait_request_body = { timeout := some "1s" } ∧
    (∀ (op : Operation) (rest : List (Except Error Operation)),
      op.done = none ∨ op.done = some false →
      wait_util_done (.ok op :: rest) = wait_util_done rest ∧
      wait_calls (.ok op :: rest) = 1 + wait_calls rest) ∧
    (∀ responses : List (Except Error Operation),
      wait_util_done responses = none ↔
        ∀ r ∈ responses, is_terminal_response r = false) ∧
    (∀ responses : List (Except Error Operation),
      (∀ r ∈ responses, ∃ op, r = Except.ok op ∧
        (op.done = none ∨ op.done = some false)) →
      wait_util_done responses = none) := by
  refine ⟨rfl, ?_, wait_util_done_none_iff, ?_⟩
  · intro op rest h
    rcases h with h | h <;> constructor <;>
      simp [wait_util_done, wait_calls, wait_step, h]
  · intro responses h
    rw [wait_util_done_none_iff]
    intro r hr
    obtain ⟨op, rfl, hop⟩ := h r hr
    rcases hop with h1 | h1 <;> simp [is_terminal_response, h1]

theorem wait_loop_progress_and_termination_witness :
    wait_util_done [Except.ok ⟨"operations/3", Json.null, some false, none, none⟩,
        Except.ok ⟨"operations/3", Json.null, none, none, none⟩] = none ∧
    wait_calls (Except.ok ⟨"operations/3", Json.null, some false, none, none⟩ :: []) =
      1 + wait_calls [] := by
  constructor
  · refine wait_loop_progress_and_termination.2.2.2 _ ?_
    intro r hr
    simp only [List.mem_cons, List.not_mem_nil, or_false] at hr
    rcases hr with rfl | rfl
    · exact ⟨_, rfl, Or.inr rfl⟩
    · exact ⟨_, rfl, Or.inl rfl⟩
  · exact (wait_loop_progress_and_termination.2.1
      ⟨"operations/3", Json.null, some false, none, none⟩ [] (Or.inr rfl)).2

/-- C5: each dispatcher classifies an HTTP round trip the same way: status 200
decodes the body as the expected response type, with a decode failure surfaced
as `Error::SerdeJsonError`; any non-200 status whose body decodes as a JSON
value yields `Error::ResponseError` carrying the exact numeric status and the
decoded payload; and a non-200 body that fails to decode yields
`Error::SerdeJsonError` instead of a remote error. -/
theorem dispatch_outcome_classification (OB : Type)
    (from_slice : List Nat → Except SerdeError OB)
    (json_from_slice : List Nat → Except SerdeError Json)
    (status : Nat) (body : List Nat) :
    (status = 200 →
      (∀ v, from_slice body = .ok v →
        post_request_classify from_slice json_from_slice status body = .ok v ∧
        get_request_classify from_slice json_from_slice status body = .ok v ∧
        delete_request_classify from_slice json_from_slice status body = .ok v) ∧
      (∀ e, from_slice body = .error e →
        post_request_classify from_slice json_from_slice status body
          = .error (.SerdeJsonError e) ∧
        get_request_classify from_slice json_from_slice status body
          = .error (.SerdeJsonError e) ∧
        delete_request_classify from_slice json_from_slice status body
          = .error (.SerdeJsonError e))) ∧
    (status ≠ 200 →
      (∀ b, json_from_slice body = .ok b →
        post_request_classify from_slice json_from_slice status body
          = .error (.ResponseError status b) ∧
        get_request_classify from_slice json_from_slice status body
          = .error (.ResponseError status b) ∧
        delete_request_classify from_slice json_from_slice status body
          = .error (.ResponseError status b)) ∧
      (∀ e, json_from_slice body = .error e →
        post_request_classify from_slice json_from_slice status body
          = .error (.SerdeJsonError e) ∧
        get_request_classify from_slice json_from_slice status body
          = .error (.SerdeJsonError e) ∧
        delete_request_classify from_slice json_from_slice status body
          = .error (.SerdeJsonError e))) := by
  constructor
  · intro h200
    subst h200
    constructor
    · intro v hv
      refine ⟨?_, ?_, ?_⟩ <;> simp [post_request_classify, get_request_classify,
        delete_request_classify, code.OK, hv]
    · intro e he
      refine ⟨?_, ?_, ?_⟩ <;> simp [post_request_classify, get_request_classify,
        delete_request_classify, code.OK, he]
  · intro hne
    constructor
    · intro b hb
      refine ⟨?_, ?_, ?_⟩ <;> simp [post_request_classify, get_request_classify,
        delete_request_classify, code.OK, hne, hb]
    · intro e he
      refine ⟨?_, ?_, ?_⟩ <;> simp [post_request_classify, get_request_classify,
        delete_request_classify, code.OK, hne, he]

theorem dispatch_outcome_classification_witness :
    post_request_classify (fun _ => (Except.ok 7 : Except SerdeError Nat))
      (fun _ => Except.ok Json.null) 200 [] = Except.ok 7 ∧
    post_request_classify (fun _ => (Except.error ⟨"bad"⟩ : Except SerdeError Nat))
      (fun _ => Except.ok Json.null) 200 [] = Except.error (.SerdeJsonError ⟨"bad"⟩) ∧
    post_request_classify (fun _ => (Except.ok 7 : Except SerdeError Nat))
      (fun _ => Except.ok (Json.str "oops")) 404 []
        = Except.error (.ResponseError 404 (Json.str "oops")) ∧
    post_request_classify (fun _ => (Except.ok 7 : Except SerdeError Nat))
      (fun _ => Except.error ⟨"bad"⟩) 404 [] = Except.error (.SerdeJsonError ⟨"bad"⟩) := by
  refine ⟨?_, ?_, ?_, ?_⟩
  · exact (((dispatch_outcome_classification Nat (fun _ => .ok 7)
      (fun _ => .ok Json.null) 200 []).1 rfl).1 7 rfl).1
  · exact (((dispatch_outcome_classification Nat (fun _ => .error ⟨"bad"⟩)
      (fun _ => .ok Json.null) 200 []).1 rfl).2 ⟨"bad"⟩ rfl).1
  · exact (((dispatch_outcome_classification Nat (fun _ => .ok 7)
      (fun _ => .ok (Json.str "oops")) 404 []).2 (by decide)).1 (Json.str "oops") rfl).1
  · exact (((dispatch_outcome_classification Nat (fun _ => .ok 7)
      (fun _ => .error ⟨"bad"⟩) 404 []).2 (by decide)).2 ⟨"bad"⟩ rfl).1

/-- C6: contrary to the claim, `delete_operation` builds the `:cancel`-suffixed
URL — the same URL `cancel_operation` builds — rather than the bare operation
resource path; evaluated here at a concrete operation name. -/
theorem delete_operation_url_uses_cancel_suffix :
    delete_operation_url "projects/p/locations/l/operations/op1"
      = "https://translation.googleapis.com/v3beta1/projects/p/locations/l/operations/op1:cancel" ∧
    delete_operation_url "projects/p/locations/l/operations/op1"
      = cancel_operation_url "projects/p/locations/l/operations/op1" ∧
    delete_operation_url "projects/p/locations/l/operations/op1"
      ≠ bare_operation_url "projects/p/locations/l/operations/op1" := by
  refine ⟨rfl, rfl, ?_⟩
  decide

/-- C7 counterexample: serializing a `TranslateTextGlossaryConfig` whose
`ignore_case` is `None` does not omit the field — the emitted object still
carries the key `ignoreCase`, bound to JSON `null`. -/
theorem none_optional_field_not_omitted :
    TranslateTextGlossaryConfig.to_json ⟨"g", none⟩
      = Json.obj [("glossary", Json.str "g"), ("ignoreCase", Json.null)] ∧
    obj_keys (TranslateTextGlossaryConfig.to_json ⟨"g", none⟩)
      = ["glossary", "ignoreCase"] :=
  ⟨rfl, rfl⟩

/-- C7 amended: for every serde-roundtrip struct
(`TranslateTextGlossaryConfig`, `GcsSource`, `GlossaryInputConfig`,
`LanguageCodePair`, `LanguageCodesSet`, `Glossary`) and every combination of
optional fields, encoding to JSON then decoding reproduces the original
structure; a `None` optional field is serialized as an explicit `null` (the
field stays present), not omitted. -/
theorem serde_roundtrip_none_as_null :
    (∀ c : TranslateTextGlossaryConfig,
      TranslateTextGlossaryConfig.from_json c.to_json = .ok c) ∧
    (∀ s : GcsSource, GcsSource.from_json s.to_json = .ok s) ∧
    (∀ c : GlossaryInputConfig, GlossaryInputConfig.from_json c.to_json = .ok c) ∧
    (∀ p : LanguageCodePair, LanguageCodePair.from_json p.to_json = .ok p) ∧
    (∀ s : LanguageCodesSet, LanguageCodesSet.from_json s.to_json = .ok s) ∧
    (∀ g : Glossary, Glossary.from_json g.to_json = .ok g) ∧
    (∀ glossary, TranslateTextGlossaryConfig.to_json ⟨glossary, none⟩
      = Json.obj [("glossary", Json.str glossary), ("ignoreCase", Json.null)]) := by
  refine ⟨?_, ?_, ?_, ?_, ?_, ?_, ?_⟩
  · intro c
    obtain ⟨g, ic⟩ := c
    cases ic <;> rfl
  · intro s
    rfl
  · intro c
    rfl
  · intro p
    rfl
  · intro s
    obtain ⟨l⟩ := s
    simp [LanguageCodesSet.from_json, LanguageCodesSet.to_json, req_field,
      get_field, decode_string_list, decode_string_elems_map, List.lookup,
      except_ok_bind]
  · intro g
    obtain ⟨n, ic, ec, st, et, lp, lcs⟩ := g
    cases ec <;> cases st <;> cases et <;> cases lp <;> cases lcs <;>
      simp [Glossary.from_json, Glossary.to_json, GlossaryInputConfig.from_json,
        GlossaryInputConfig.to_json, GcsSource.from_json, GcsSource.to_json,
        LanguageCodePair.from_json, LanguageCodePair.to_json,
        LanguageCodesSet.from_json, LanguageCodesSet.to_json,
        req_field, opt_field, get_field, decode_string, decode_usize,
        decode_string_list, decode_string_elems_map, json_of_opt, List.lookup,
        except_ok_bind, except_map_ok]
  · intro glossary
    rfl

/-- C8 counterexample: at the concrete token `"tok"`, `delete_request` attaches
only the Authorization header — `Content-Type: application/json` is absent from
its header list, so the claim's "POST, GET, and DELETE alike" fails. -/
theorem delete_request_lacks_content_type :
    delete_request_headers "tok" = some [("Authorization", "Bearer tok")] ∧
    ∀ hs, delete_request_headers "tok" = some hs →
      ("Content-Type", "application/json") ∉ hs := by
  have h1 : delete_request_headers "tok" = some [("Authorization", "Bearer tok")] := by
    decide
  refine ⟨h1, ?_⟩
  intro hs h
  rw [h1] at h
  injection h with h2
  subst h2
  decide

/-- C8 amended: for every access token whose bearer string is a valid header
value, `post_request` and `get_request` attach both `Content-Type:
application/json` and `Authorization: Bearer <trimmed token>`, while
`delete_request` attaches only the Authorization header; on all three the
Authorization value is exactly `"Bearer "` followed by the trimmed token. -/
theorem request_headers_bearer_trimmed (t : String)
    (h : is_valid_header_value (bearer_value t) = true) :
    post_request_headers t = some [("Content-Type", "application/json"),
      ("Authorization", "Bearer " ++ rust_trim t)] ∧
    get_request_headers t = some [("Content-Type", "application/json"),
      ("Authorization", "Bearer " ++ rust_trim t)] ∧
    delete_request_headers t = some [("Authorization", "Bearer " ++ rust_trim t)] := by
  have h1 : is_valid_header_value ("Bearer " ++ rust_trim t) = true := h
  refine ⟨?_, ?_, ?_⟩ <;> simp [post_request_headers, get_request_headers,
    delete_request_headers, header_value_from_str, bearer_value, h1]

theorem request_headers_bearer_trimmed_witness :
    post_request_headers " tok " = some [("Content-Type", "application/json"),
      ("Authorization", "Bearer tok")] ∧
    get_request_headers " tok " = some [("Content-Type", "application/json"),
      ("Authorization", "Bearer tok")] ∧
    delete_request_headers " tok " = some [("Authorization", "Bearer tok")] := by
  have h := request_headers_bearer_trimmed " tok " (by decide)
  have e : "Bearer " ++ rust_trim " tok " = "Bearer tok" := by decide
  rw [e] at h
  exact h

/-- C9: the `Empty` response type skips decoding entirely: `from_slice` returns
`Ok` on every body byte sequence, so a status-200 response with any body at all
makes each dispatcher succeed trivially. -/
theorem empty_response_decodes_trivially :
    ∀ (data : List Nat) (json_from_slice : List Nat → Except SerdeError Json),
      Empty.from_slice data = .ok {} ∧
      post_request_classify Empty.from_slice json_from_slice 200 data = .ok {} ∧
      get_request_classify Empty.from_slice json_from_slice 200 data = .ok {} ∧
      delete_request_classify Empty.from_slice json_from_slice 200 data = .ok {} := by
  intro data json_from_slice
  exact ⟨rfl, rfl, rfl, rfl⟩

/-- C10: the dispatchers are not total in the access token: a token with an
embedded newline survives trimming, is invalid as an HTTP header value, and so
`HeaderValue::from_str(...)` fails and its immediate `unwrap()` panics —
modelled here as all three header constructions returning `none` instead of any
`Err`; token well-formedness is an unstated precondition of every call wrapper
that forwards the token to these dispatchers. -/
theorem invalid_token_header_panics :
    header_value_from_str (bearer_value "bad\ntoken") = none ∧
    post_request_headers "bad\ntoken" = none ∧
    get_request_headers "bad\ntoken" = none ∧
    delete_request_headers "bad\ntoken" = none := by
  refine ⟨?_, ?_, ?_, ?_⟩ <;> decide

end GoogleTranslation


